import Mathlib

/-
Verification development for the unified glasses-stream system
(stream_unified.py).  The data model and operations below are a shallow
embedding of the Python source: Python ints are Lean `Int`, numpy frames
are rectangular lists of rows of 3-channel pixels, numpy slicing with
possibly negative bounds is modelled exactly (negative indices wrap by
adding the axis length, then clamp), and fallible operations (numpy
broadcast errors, enum constructor failures, json parse failures) are
modelled with `Option` / `Except`.
-/

/-- A pixel: three 8-bit colour channels (B, G, R).  `np.zeros` yields the
black pixel (0, 0, 0). -/
abbrev Pix := Nat × Nat × Nat

def black : Pix := (0, 0, 0)

/-- A frame: a list of rows, each row a list of pixels.  Mirrors a numpy
array of shape (height, width, 3); frames built by the screen-capture
collaborator are rectangular. -/
abbrev Frame := List (List Pix)

/-- `shape` of a rectangular frame: (rows, cols), like numpy shape[0:2]. -/
def shapeOf (f : Frame) : Nat × Nat := (f.length, (f.headD []).length)

/-- Pixel lookup at row i, column j (black outside the frame). -/
def pixelAt (f : Frame) (i j : Nat) : Pix := (f.getD i []).getD j black

/-- OverlayMode enum from stream_unified.py (NONE=0, MINIMAL=1,
STANDARD=2, FULL=3, DEBUG=4). -/
inductive OverlayMode
  | NONE
  | MINIMAL
  | STANDARD
  | FULL
  | DEBUG
deriving DecidableEq

/-- The `.value` of each OverlayMode member. -/
def OverlayMode.value : OverlayMode → Int
  | .NONE => 0
  | .MINIMAL => 1
  | .STANDARD => 2
  | .FULL => 3
  | .DEBUG => 4

/-- The Python call `OverlayMode(v)`: succeeds on the values 0..4 and
raises ValueError (modelled as `none`) otherwise. -/
def OverlayMode.ofValue (v : Int) : Option OverlayMode :=
  if v = 0 then some .NONE
  else if v = 1 then some .MINIMAL
  else if v = 2 then some .STANDARD
  else if v = 3 then some .FULL
  else if v = 4 then some .DEBUG
  else none

/-- MovementMode enum from stream_unified.py (FINE=1, NORMAL=5, FAST=10,
TURBO=20). -/
inductive MovementMode
  | FINE
  | NORMAL
  | FAST
  | TURBO
deriving DecidableEq

/-- The `.value` of each MovementMode member. -/
def MovementMode.value : MovementMode → Int
  | .FINE => 1
  | .NORMAL => 5
  | .FAST => 10
  | .TURBO => 20

/-- The Python call `MovementMode(v)`: succeeds on 1, 5, 10, 20 and
raises ValueError (modelled as `none`) otherwise. -/
def MovementMode.ofValue (v : Int) : Option MovementMode :=
  if v = 1 then some .FINE
  else if v = 5 then some .NORMAL
  else if v = 10 then some .FAST
  else if v = 20 then some .TURBO
  else none

/-- The StreamConfig dataclass. -/
structure StreamConfig where
  x : Int
  y : Int
  width : Int
  height : Int
  overlay_mode : OverlayMode
  movement_mode : MovementMode
  auto_save : Bool
  config_file : String
deriving DecidableEq

/-- The dataclass defaults of StreamConfig. -/
def defaultConfig : StreamConfig :=
  ⟨40, 330, 340, 230, OverlayMode.STANDARD, MovementMode.NORMAL, true,
   "stream_config.json"⟩

/-
Python / numpy basic slicing l[a:b] with step 1: a negative bound has the
axis length added to it; the result is then clamped to [0, len].
-/

/-- Effective index of a slice bound `i` on an axis of length `n`. -/
def sliceIdx (n : Nat) (i : Int) : Nat :=
  if i < 0 then (i + n).toNat else min i.toNat n

/-- Python slice `l[a:b]` (step 1). -/
def pySlice {α : Type} (l : List α) (a b : Int) : List α :=
  (l.take (sliceIdx l.length b)).drop (sliceIdx l.length a)

/-- Number of elements of the slice `[a:b]` on an axis of length `n`
(this is what numpy reports as the shape of the sliced axis, even when
the other axis is empty). -/
def sliceLen (n : Nat) (a b : Int) : Nat := sliceIdx n b - sliceIdx n a

/-- `padded[:sh, :sw] = stream` on a zero-initialised `padded` of shape
(h, w): each stream row fills the left part of its output row, the rest
stays black; rows below the stream stay black. Only meaningful when the
stream fits ( sh ≤ h and sw ≤ w), which the caller checks. -/
def padFrame (h w : Nat) (stream : Frame) : Frame :=
  stream.map (fun r => r ++ List.replicate (w - r.length) black) ++
    List.replicate (h - stream.length) (List.replicate w black)

/-- StreamCapture._extract_region.  Faithful to the source including
numpy's negative-bound wrapping in `frame[y1:y2, x1:x2]`:
  y1 = max(0, y); y2 = min(frame.shape[0], y + height)
  x1 = max(0, x); x2 = min(frame.shape[1], x + width)
  stream = frame[y1:y2, x1:x2]
  pad with zeros if stream is smaller than (height, width).
`none` models a raised exception: np.zeros with a negative dimension, or
the broadcast error when the sliced stream is *larger* than the padding
buffer along some axis. -/
def StreamCapture.extract_region (cfg : StreamConfig) (frame : Frame) :
    Option Frame :=
  let H : Nat := frame.length
  let W : Nat := (frame.headD []).length
  let y1 : Int := max 0 cfg.y
  let y2 : Int := min (H : Int) (cfg.y + cfg.height)
  let x1 : Int := max 0 cfg.x
  let x2 : Int := min (W : Int) (cfg.x + cfg.width)
  let stream : Frame := (pySlice frame y1 y2).map (fun row => pySlice row x1 x2)
  let sh : Nat := stream.length
  let sw : Nat := sliceLen W x1 x2
  if (sh : Int) < cfg.height ∨ (sw : Int) < cfg.width then
    if 0 ≤ cfg.height ∧ 0 ≤ cfg.width ∧
        sh ≤ cfg.height.toNat ∧ sw ≤ cfg.width.toNat then
      some (padFrame cfg.height.toNat cfg.width.toNat stream)
    else none
  else some stream

/-
Frame hand-off buffer: queue.Queue(maxsize=30).  The producer side
(_capture_loop lines 79-82) evicts the single oldest entry when the
queue is full, then inserts; the consumer side (get_frame) polls with
get_nowait, returning None when empty.  The buffer state is the list of
queued frames, oldest first.
-/

/-- The fixed queue capacity (maxsize=30). -/
def bufferCapacity : Nat := 30

/-- One publish step into a capacity-`cap` drop-oldest buffer:
`if full(): get()` then `put(x)`. -/
def bufferInsert {α : Type} (cap : Nat) (q : List α) (x : α) : List α :=
  (if cap ≤ q.length then q.drop 1 else q) ++ [x]

/-- The publish step of _capture_loop at the source capacity. -/
def StreamCapture.put_frame {α : Type} : List α → α → List α :=
  bufferInsert bufferCapacity

/-- StreamCapture.get_frame: non-blocking poll; returns the oldest frame
and the remaining queue, or `none` (queue.Empty caught) leaving the
queue empty. -/
def StreamCapture.get_frame {α : Type} : List α → Option α × List α
  | [] => (none, [])
  | x :: rest => (some x, rest)

/-
OverlayRenderer.  The drawing primitives (_draw_border, _draw_info,
_draw_guides, _draw_debug) wrap cv2 rasterisation: font-glyph rendering
(putText) and floating-point alpha blending (addWeighted), which are
external collaborators; they are modelled as parameters.  The dispatch
logic of render — the part the monotonicity claim is about — is
translated exactly.
-/

/-- The four drawing layers used by OverlayRenderer.render.  _draw_border
and _draw_info read the shared config; _draw_guides and _draw_debug only
read the frame. -/
structure DrawOps where
  draw_border : StreamConfig → Frame → Frame
  draw_info : StreamConfig → Frame → Frame
  draw_guides : Frame → Frame
  draw_debug : Frame → Frame

/-- OverlayRenderer.render with the overlay mode passed explicitly
(the source reads self.config.overlay_mode; `render` below fixes the
mode to the config field).  Mirrors the source dispatch:
early return on NONE, then cumulative `.value >=` comparisons, and an
equality test for DEBUG.  frame.copy() is value semantics here. -/
def OverlayRenderer.renderMode (ops : DrawOps) (cfg : StreamConfig)
    (m : OverlayMode) (frame : Frame) : Frame :=
  if m = OverlayMode.NONE then frame
  else
    let f1 := if OverlayMode.MINIMAL.value ≤ m.value then
        ops.draw_border cfg frame else frame
    let f2 := if OverlayMode.STANDARD.value ≤ m.value then
        ops.draw_info cfg f1 else f1
    let f3 := if OverlayMode.FULL.value ≤ m.value then
        ops.draw_guides f2 else f2
    if m = OverlayMode.DEBUG then ops.draw_debug f3 else f3

/-- OverlayRenderer.render: dispatch on the config's overlay mode. -/
def OverlayRenderer.render (ops : DrawOps) (cfg : StreamConfig)
    (frame : Frame) : Frame :=
  OverlayRenderer.renderMode ops cfg cfg.overlay_mode frame

/-
MovementController.
-/

/-- The self.movement_speeds dict. -/
def MovementController.movement_speeds : MovementMode → Int
  | .FINE => 1
  | .NORMAL => 5
  | .FAST => 10
  | .TURBO => 20

/-- MovementController.move(dx, dy, relative). -/
def MovementController.move (cfg : StreamConfig) (dx dy : Int)
    (relative : Bool) : StreamConfig :=
  if relative then
    ⟨cfg.x + dx * MovementController.movement_speeds cfg.movement_mode,
     cfg.y + dy * MovementController.movement_speeds cfg.movement_mode,
     cfg.width, cfg.height, cfg.overlay_mode, cfg.movement_mode,
     cfg.auto_save, cfg.config_file⟩
  else
    ⟨dx, dy, cfg.width, cfg.height, cfg.overlay_mode, cfg.movement_mode,
     cfg.auto_save, cfg.config_file⟩

/-- MovementController.resize(dw, dh): width/height floored at 50. -/
def MovementController.resize (cfg : StreamConfig) (dw dh : Int) :
    StreamConfig :=
  ⟨cfg.x, cfg.y, max 50 (cfg.width + dw), max 50 (cfg.height + dh),
   cfg.overlay_mode, cfg.movement_mode, cfg.auto_save, cfg.config_file⟩

/-- MovementController.reset(): restore the default region. -/
def MovementController.reset (cfg : StreamConfig) : StreamConfig :=
  ⟨40, 330, 340, 230, cfg.overlay_mode, cfg.movement_mode,
   cfg.auto_save, cfg.config_file⟩

/-- A sequence of resize calls, applied left to right. -/
def applyResizes (cfg : StreamConfig) (ds : List (Int × Int)) : StreamConfig :=
  List.foldl (fun c d => MovementController.resize c d.1 d.2) cfg ds

/-
ConfigManager.  The persisted record is the parsed json dict; a field is
`none` when absent from the dict (data.get falls back to its default).
The load input is: `none` = file absent (os.path.exists false);
`some (Except.error _)` = the file exists but json.load (or the dict
access) raises, before any field assignment; `some (Except.ok data)` =
a successfully parsed record with integer-valued fields.
-/

/-- The parsed persisted record: each field present (with an integer
value) or absent. -/
structure ConfigRecord where
  x : Option Int
  y : Option Int
  width : Option Int
  height : Option Int
  overlay_mode : Option Int
  movement_mode : Option Int
deriving DecidableEq

/-- ConfigManager.save: the record written to disk. -/
def ConfigManager.save (config : StreamConfig) : ConfigRecord :=
  ⟨some config.x, some config.y, some config.width, some config.height,
   some config.overlay_mode.value, some config.movement_mode.value⟩

/-- ConfigManager.load.  Returns the Python return value paired with the
config after the call (the source mutates `config` in place; the
assignments happen in source order, so a ValueError raised by an enum
constructor leaves the earlier assignments in place and is swallowed by
the bare except, returning False). -/
def ConfigManager.load (file : Option (Except Unit ConfigRecord))
    (config : StreamConfig) : Bool × StreamConfig :=
  match file with
  | none => (false, config)
  | some (Except.error _) => (false, config)
  | some (Except.ok data) =>
    let c1 : StreamConfig :=
      ⟨data.x.getD config.x, data.y.getD config.y,
       data.width.getD config.width, data.height.getD config.height,
       config.overlay_mode, config.movement_mode,
       config.auto_save, config.config_file⟩
    match OverlayMode.ofValue (data.overlay_mode.getD 2) with
    | none => (false, c1)
    | some om =>
      match MovementMode.ofValue (data.movement_mode.getD 5) with
      | none => (false, ⟨c1.x, c1.y, c1.width, c1.height, om,
          c1.movement_mode, c1.auto_save, c1.config_file⟩)
      | some mm => (true, ⟨c1.x, c1.y, c1.width, c1.height, om, mm,
          c1.auto_save, c1.config_file⟩)

/-
Concrete inputs used by the counterexample and witness theorems.
-/

/-- A rectangular h×w test frame with pairwise distinct non-black
pixels. -/
def testFrame (h w : Nat) : Frame :=
  (List.range h).map (fun i => (List.range w).map (fun j => (i + 1, j + 1, 0)))

/-- Region fully to the left of the frame: x ∈ [-3, -1). -/
def cfgC1 : StreamConfig :=
  ⟨-3, 0, 2, 4, OverlayMode.STANDARD, MovementMode.NORMAL, true,
   "stream_config.json"⟩

/-- Region sticking out above the frame with y + height = -1. -/
def cfgC2 : StreamConfig :=
  ⟨0, -3, 4, 2, OverlayMode.STANDARD, MovementMode.NORMAL, true,
   "stream_config.json"⟩

/-- A config whose overlay mode differs from the load-time default. -/
def cfgPrior : StreamConfig :=
  ⟨40, 330, 340, 230, OverlayMode.FULL, MovementMode.TURBO, true,
   "stream_config.json"⟩

/-- A successfully parsed record with every field absent (json text
"\x7b\x7d"). -/
def emptyRecord : ConfigRecord := ⟨none, none, none, none, none, none⟩

/-- A parsed record with a valid x and an invalid overlay_mode value. -/
def recBad : ConfigRecord := ⟨some 99, none, none, none, some 99, none⟩

/-- A parsed record with an invalid movement_mode value. -/
def recBad2 : ConfigRecord := ⟨none, none, none, none, none, some 7⟩

/-- A parsed record with some fields present, some absent. -/
def rec0 : ConfigRecord := ⟨some 7, none, some 120, none, some 3, none⟩

/-- Concrete drawing layers for witnesses: the border layer recolours
the whole frame, the rest pass through. -/
def ops0 : DrawOps :=
  ⟨fun _ _ => [[(1, 1, 1)]], fun _ f => f, fun f => f, fun f => f⟩

/-- A one-pixel black frame. -/
def frame0 : Frame := [[black]]

/-
Helper lemmas.
-/

/-- Round-trip of the OverlayMode enum through its ordinal. -/
theorem overlayMode_ofValue_value (m : OverlayMode) :
    OverlayMode.ofValue m.value = some m := by cases m <;> rfl

/-- Round-trip of the MovementMode enum through its ordinal. -/
theorem movementMode_ofValue_value (m : MovementMode) :
    MovementMode.ofValue m.value = some m := by cases m <;> rfl

/-- Folding drop-oldest inserts over a buffer keeps exactly the most
recent elements: the result is the suffix of `q ++ xs` that fits the
capacity. -/
theorem foldl_bufferInsert_drop {α : Type} (cap : Nat) (hcap : 1 ≤ cap)
    (xs : List α) :
    ∀ q : List α, q.length ≤ cap →
      List.foldl (bufferInsert cap) q xs =
        (q ++ xs).drop (q.length + xs.length - cap) := by
  induction xs with
  | nil =>
    intro q hq
    have h0 : q.length + List.length ([] : List α) - cap = 0 := by
      simp only [List.length_nil]; omega
    simp only [List.foldl_nil, List.append_nil, h0, List.drop_zero]
  | cons x xs ih =>
    intro q hq
    rw [List.foldl_cons]
    by_cases hfull : cap ≤ q.length
    · have hq1 : q.length = cap := le_antisymm hq hfull
      cases q with
      | nil => simp only [List.length_nil] at hq1; omega
      | cons a q' =>
        have hlen : q'.length + 1 = cap := by simpa using hq1
        have hfull2 : cap ≤ q'.length + 1 := by simpa using hfull
        have hins : bufferInsert cap (a :: q') x = q' ++ [x] := by
          simp [bufferInsert, hfull2]
        rw [hins, ih (q' ++ [x]) (by simp; omega)]
        have e1 : (q' ++ [x]).length + xs.length - cap = xs.length := by
          simp only [List.length_append, List.length_cons, List.length_nil]
          omega
        have e2 : (a :: q').length + (x :: xs).length - cap = xs.length + 1 := by
          simp only [List.length_cons]; omega
        rw [e1, e2]
        simp [List.append_assoc, List.drop_succ_cons]
    · have hins : bufferInsert cap q x = q ++ [x] := by
        simp [bufferInsert, hfull]
      rw [hins, ih (q ++ [x]) (by simp; omega)]
      have e1 : (q ++ [x]).length + xs.length - cap =
          q.length + (x :: xs).length - cap := by
        simp only [List.length_append, List.length_cons, List.length_nil]
        omega
      rw [e1, List.append_assoc]
      simp

/-- Any resize leaves both dimensions at least 50, so a fold of resizes
preserves the floor. -/
theorem applyResizes_ge (ds : List (Int × Int)) :
    ∀ cfg : StreamConfig, 50 ≤ cfg.width → 50 ≤ cfg.height →
      50 ≤ (applyResizes cfg ds).width ∧ 50 ≤ (applyResizes cfg ds).height := by
  induction ds with
  | nil => intro cfg hw hh; exact ⟨hw, hh⟩
  | cons d ds ih =>
    intro cfg hw hh
    have hstep : applyResizes cfg (d :: ds) =
        applyResizes (MovementController.resize cfg d.1 d.2) ds := by
      simp [applyResizes, List.foldl_cons]
    rw [hstep]
    exact ih _ (le_max_left _ _) (le_max_left _ _)

/-
Claim theorems.
-/

/-- Claim C1 (code bug): the claim says a region fully outside the frame
yields an all-black frame of the requested size, with the intersection
of region and frame copied into the top-left of a zero-initialised
(height, width) buffer.  The code violates this: for the 4×4 test frame
and the region x = -3, y = 0, width = 2, height = 4 (fully to the left
of the frame, empty intersection), x2 = min(W, x + width) = -1 wraps in
numpy slicing to column W - 1, the slice frame[0:4, 0:-1] has shape
(4, 3), the padding branch is skipped, and the result is the left 4×3
sub-frame of the source — neither black nor of the requested (4, 2)
size. -/
theorem extract_fully_outside_not_black :
    cfgC1.x + cfgC1.width ≤ 0 ∧ 0 < cfgC1.width ∧ 0 < cfgC1.height ∧
    StreamCapture.extract_region cfgC1 (testFrame 4 4) =
      some ((testFrame 4 4).map (fun r => r.take 3)) ∧
    (StreamCapture.extract_region cfgC1 (testFrame 4 4)).map shapeOf =
      some (4, 3) ∧
    StreamCapture.extract_region cfgC1 (testFrame 4 4) ≠
      some (List.replicate 4 (List.replicate 2 black)) := by decide

/-- Claim C2 (code bug): the claim says the extracted frame always has
shape exactly (config.height, config.width).  For the 4×4 test frame
and the region x = 0, y = -3, width = 4, height = 2 (positive width and
height), y2 = min(H, y + height) = -1 wraps in numpy slicing to row
H - 1, the slice has 3 rows, the padding branch is skipped, and the
output shape is (3, 4) instead of (2, 4). -/
theorem extract_shape_invariant_violated :
    0 < cfgC2.width ∧ 0 < cfgC2.height ∧
    (StreamCapture.extract_region cfgC2 (testFrame 4 4)).map shapeOf =
      some (3, 4) ∧
    (cfgC2.height.toNat, cfgC2.width.toNat) = (2, 4) ∧
    (3, 4) ≠ ((2 : Nat), (4 : Nat)) := by decide

/-- Claim C3: the hand-off buffer has fixed capacity 30; a publish into
a full buffer evicts exactly the single oldest entry before inserting;
inserting capacity + 1 frames into the empty buffer leaves exactly the
most recent 30, in FIFO order (polling pops the front); and polling an
empty buffer returns `none` immediately. -/
theorem buffer_drop_oldest_fifo (xs : List Nat)
    (h : xs.length = bufferCapacity + 1) :
    List.foldl StreamCapture.put_frame [] xs = xs.drop 1 ∧
    bufferCapacity = 30 ∧
    (∀ (q : List Nat) (x : Nat), q.length = bufferCapacity →
      StreamCapture.put_frame q x = q.drop 1 ++ [x]) ∧
    (∀ q : List Nat, StreamCapture.get_frame q = (q.head?, q.tail)) ∧
    StreamCapture.get_frame ([] : List Nat) = (none, []) := by
  refine ⟨?_, rfl, ?_, ?_, rfl⟩
  · have h1 := foldl_bufferInsert_drop bufferCapacity (by decide) xs []
      (by simp)
    simp only [List.nil_append, List.length_nil, Nat.zero_add] at h1
    rw [h] at h1
    simpa [StreamCapture.put_frame] using h1
  · intro q x hq
    simp [StreamCapture.put_frame, bufferInsert, hq]
  · intro q
    cases q <;> rfl

/-- Witness for C3 at a concrete 31-element insertion sequence. -/
theorem buffer_drop_oldest_fifo_w :
    List.foldl StreamCapture.put_frame [] (List.range 31) =
      (List.range 31).drop 1 :=
  (buffer_drop_oldest_fifo (List.range 31) (by decide)).1

/-- Claim C4 counterexample: for the successfully parsed empty record
(load returns True), the prior overlay mode FULL and movement mode
TURBO are not kept: the code calls OverlayMode(data.get('overlay_mode', 2))
and MovementMode(data.get('movement_mode', 5)), so absent enum fields
are reset to STANDARD and NORMAL instead of their prior values. -/
theorem load_absent_enum_uses_default_cex :
    emptyRecord.overlay_mode = none ∧ emptyRecord.movement_mode = none ∧
    (ConfigManager.load (some (Except.ok emptyRecord)) cfgPrior).1 = true ∧
    (ConfigManager.load (some (Except.ok emptyRecord)) cfgPrior).2.overlay_mode =
      OverlayMode.STANDARD ∧
    cfgPrior.overlay_mode = OverlayMode.FULL ∧
    (ConfigManager.load (some (Except.ok emptyRecord)) cfgPrior).2.movement_mode =
      MovementMode.NORMAL ∧
    cfgPrior.movement_mode = MovementMode.TURBO := by decide

/-- Claim C4 (amended): for every record that load parses successfully,
the numeric fields x, y, width, height are overwritten exactly when
present and keep their prior value when absent, and auto_save and
config_file are untouched; but the enum fields are always overwritten:
overlay_mode and movement_mode become the enum of the recorded ordinal
when present, and default to STANDARD and NORMAL (ordinals 2 and 5)
when absent — not their prior values. -/
theorem load_overwrites_present_fields (data : ConfigRecord)
    (cfg : StreamConfig)
    (h : (ConfigManager.load (some (Except.ok data)) cfg).1 = true) :
    (ConfigManager.load (some (Except.ok data)) cfg).2.x = data.x.getD cfg.x ∧
    (ConfigManager.load (some (Except.ok data)) cfg).2.y = data.y.getD cfg.y ∧
    (ConfigManager.load (some (Except.ok data)) cfg).2.width =
      data.width.getD cfg.width ∧
    (ConfigManager.load (some (Except.ok data)) cfg).2.height =
      data.height.getD cfg.height ∧
    (ConfigManager.load (some (Except.ok data)) cfg).2.auto_save =
      cfg.auto_save ∧
    (ConfigManager.load (some (Except.ok data)) cfg).2.config_file =
      cfg.config_file ∧
    OverlayMode.ofValue (data.overlay_mode.getD 2) =
      some (ConfigManager.load (some (Except.ok data)) cfg).2.overlay_mode ∧
    MovementMode.ofValue (data.movement_mode.getD 5) =
      some (ConfigManager.load (some (Except.ok data)) cfg).2.movement_mode ∧
    (data.overlay_mode = none →
      (ConfigManager.load (some (Except.ok data)) cfg).2.overlay_mode =
        OverlayMode.STANDARD) ∧
    (data.movement_mode = none →
      (ConfigManager.load (some (Except.ok data)) cfg).2.movement_mode =
        MovementMode.NORMAL) := by
  rcases hom : OverlayMode.ofValue (data.overlay_mode.getD 2) with _ | om
  · exfalso
    simp [ConfigManager.load, hom] at h
  · rcases hmv : MovementMode.ofValue (data.movement_mode.getD 5) with _ | mm
    · exfalso
      simp [ConfigManager.load, hom, hmv] at h
    · have hload : ConfigManager.load (some (Except.ok data)) cfg =
          (true, ⟨data.x.getD cfg.x, data.y.getD cfg.y,
            data.width.getD cfg.width, data.height.getD cfg.height,
            om, mm, cfg.auto_save, cfg.config_file⟩) := by
        simp [ConfigManager.load, hom, hmv]
      rw [hload]
      refine ⟨rfl, rfl, rfl, rfl, rfl, rfl, rfl, rfl, ?_, ?_⟩
      · intro hnone
        rw [hnone] at hom
        have h2 : some OverlayMode.STANDARD = some om := by
          rw [← hom]; rfl
        simpa using h2.symm
      · intro hnone
        rw [hnone] at hmv
        have h2 : some MovementMode.NORMAL = some mm := by
          rw [← hmv]; rfl
        simpa using h2.symm

/-- Witness for C4 at a concrete record with x and width present and
the other numeric fields absent. -/
theorem load_overwrites_present_fields_w :
    (ConfigManager.load (some (Except.ok rec0)) defaultConfig).2.x =
      rec0.x.getD defaultConfig.x :=
  (load_overwrites_present_fields rec0 defaultConfig (by decide)).1

/-- Claim C5 counterexample: the record with x = 99 and the invalid
overlay ordinal 99 parses as JSON; load assigns x before
OverlayMode(99) raises, the bare except swallows the error and returns
False — but the passed-in config is now partially updated
(x changed 40 → 99), contradicting the claim that a corrupt record
never yields a partially updated config. -/
theorem load_partial_update_cex :
    (ConfigManager.load (some (Except.ok recBad)) defaultConfig).1 = false ∧
    (ConfigManager.load (some (Except.ok recBad)) defaultConfig).2.x = 99 ∧
    defaultConfig.x = 40 := by decide

/-- Claim C5 (amended): when the persistence file is absent, or present
but unparseable (json.load or the dict access raises before any field
assignment), load returns False and the config is completely unchanged;
when the record parses but carries an invalid overlay_mode or
movement_mode ordinal, load still returns False and no parse failure
propagates, but numeric fields present in the record have already been
overwritten. -/
theorem load_failure_modes :
    (∀ cfg : StreamConfig, ConfigManager.load none cfg = (false, cfg)) ∧
    (∀ (cfg : StreamConfig) (e : Unit),
      ConfigManager.load (some (Except.error e)) cfg = (false, cfg)) ∧
    (∀ (data : ConfigRecord) (cfg : StreamConfig),
      OverlayMode.ofValue (data.overlay_mode.getD 2) = none ∨
        MovementMode.ofValue (data.movement_mode.getD 5) = none →
      (ConfigManager.load (some (Except.ok data)) cfg).1 = false) := by
  refine ⟨fun cfg => rfl, fun cfg e => rfl, fun data cfg hbad => ?_⟩
  rcases hom : OverlayMode.ofValue (data.overlay_mode.getD 2) with _ | om
  · simp [ConfigManager.load, hom]
  · rcases hbad with h1 | h2
    · rw [hom] at h1
      exact absurd h1 (by simp)
    · simp [ConfigManager.load, hom, h2]

/-- Witness for C5 at a record whose movement_mode ordinal 7 is
invalid. -/
theorem load_failure_modes_w :
    (ConfigManager.load (some (Except.ok recBad2)) defaultConfig).1 = false :=
  load_failure_modes.2.2 recBad2 defaultConfig (Or.inr (by decide))

/-- Claim C6: save followed by load on a fresh config with the same
persistence key returns True and reproduces x, y, width, height,
overlay_mode and movement_mode exactly (auto_save and config_file of
the fresh config are untouched, as they are not persisted). -/
theorem save_load_roundtrip (c fresh : StreamConfig) :
    ConfigManager.load (some (Except.ok (ConfigManager.save c))) fresh =
      (true, ⟨c.x, c.y, c.width, c.height, c.overlay_mode, c.movement_mode,
        fresh.auto_save, fresh.config_file⟩) := by
  simp [ConfigManager.load, ConfigManager.save, overlayMode_ofValue_value,
    movementMode_ofValue_value]

/-- Claim C7: starting from a config with width ≥ 50 and height ≥ 50,
any sequence of resize calls with arbitrary deltas keeps both
dimensions ≥ 50; each resize applies its delta directly in pixels
(independent of the active speed tier) and floors each dimension at 50
independently of the other. -/
theorem resize_floor (cfg : StreamConfig) (ds : List (Int × Int))
    (hw : 50 ≤ cfg.width) (hh : 50 ≤ cfg.height) :
    50 ≤ (applyResizes cfg ds).width ∧
    50 ≤ (applyResizes cfg ds).height ∧
    (∀ (dw dh : Int) (m : MovementMode),
      (MovementController.resize
        ⟨cfg.x, cfg.y, cfg.width, cfg.height, cfg.overlay_mode, m,
         cfg.auto_save, cfg.config_file⟩ dw dh).width =
        max 50 (cfg.width + dw) ∧
      (MovementController.resize
        ⟨cfg.x, cfg.y, cfg.width, cfg.height, cfg.overlay_mode, m,
         cfg.auto_save, cfg.config_file⟩ dw dh).height =
        max 50 (cfg.height + dh)) := by
  obtain ⟨h1, h2⟩ := applyResizes_ge ds cfg hw hh
  exact ⟨h1, h2, fun dw dh m => ⟨rfl, rfl⟩⟩

/-- Witness for C7 at the default config with one large negative
resize. -/
theorem resize_floor_w :
    50 ≤ (applyResizes defaultConfig [(-1000, -1000)]).width :=
  (resize_floor defaultConfig [(-1000, -1000)] (by decide) (by decide)).1

/-- Claim C8: a relative move changes x and y by exactly dx·m and dy·m
where m is the active tier multiplier (FINE = 1, NORMAL = 5, FAST = 10,
TURBO = 20), with no clamping; a Turbo move displaces exactly 20 times
the identical Fine move; and from the default region (x = 40, y = 330)
a move(dx = 1, dy = 0) under the NORMAL tier yields x = 45, y = 330. -/
theorem move_scales_by_tier :
    (∀ (cfg : StreamConfig) (dx dy : Int),
      (MovementController.move cfg dx dy true).x =
        cfg.x + dx * MovementController.movement_speeds cfg.movement_mode ∧
      (MovementController.move cfg dx dy true).y =
        cfg.y + dy * MovementController.movement_speeds cfg.movement_mode) ∧
    MovementController.movement_speeds MovementMode.FINE = 1 ∧
    MovementController.movement_speeds MovementMode.NORMAL = 5 ∧
    MovementController.movement_speeds MovementMode.FAST = 10 ∧
    MovementController.movement_speeds MovementMode.TURBO = 20 ∧
    (∀ (cfg : StreamConfig) (dx dy : Int),
      (MovementController.move
        ⟨cfg.x, cfg.y, cfg.width, cfg.height, cfg.overlay_mode,
         MovementMode.TURBO, cfg.auto_save, cfg.config_file⟩ dx dy true).x -
          cfg.x =
        20 * ((MovementController.move
          ⟨cfg.x, cfg.y, cfg.width, cfg.height, cfg.overlay_mode,
           MovementMode.FINE, cfg.auto_save, cfg.config_file⟩ dx dy true).x -
            cfg.x) ∧
      (MovementController.move
        ⟨cfg.x, cfg.y, cfg.width, cfg.height, cfg.overlay_mode,
         MovementMode.TURBO, cfg.auto_save, cfg.config_file⟩ dx dy true).y -
          cfg.y =
        20 * ((MovementController.move
          ⟨cfg.x, cfg.y, cfg.width, cfg.height, cfg.overlay_mode,
           MovementMode.FINE, cfg.auto_save, cfg.config_file⟩ dx dy true).y -
            cfg.y)) ∧
    defaultConfig.x = 40 ∧ defaultConfig.y = 330 ∧
    defaultConfig.movement_mode = MovementMode.NORMAL ∧
    (MovementController.move defaultConfig 1 0 true).x = 45 ∧
    (MovementController.move defaultConfig 1 0 true).y = 330 := by
  refine ⟨fun cfg dx dy => ⟨rfl, rfl⟩, rfl, rfl, rfl, rfl,
    fun cfg dx dy => ⟨?_, ?_⟩, rfl, rfl, rfl, by decide, by decide⟩
  · simp [MovementController.move, MovementController.movement_speeds]
    ring
  · simp [MovementController.move, MovementController.movement_speeds]
    ring

/-- Claim C9: rendering is cumulative and monotone in the overlay mode
ordinal.  The dispatch of render is factored exactly as in the source;
the four drawing layers (cv2 border, alpha-blended info panel, guides,
debug marker) are opaque parameters, since their raster output lives in
the external cv2 collaborator.  For every interpretation of the layers:
mode NONE changes nothing, each higher mode applies exactly one more
layer on top of the previous mode's output, and for m1 < m2 every pixel
changed by mode m1 is, under mode m2, still changed relative to the
input frame or superseded (changed relative to m1's output). -/
theorem render_cumulative_monotone (ops : DrawOps) (cfg : StreamConfig)
    (frame : Frame) :
    OverlayRenderer.renderMode ops cfg OverlayMode.NONE frame = frame ∧
    OverlayRenderer.render ops
      ⟨cfg.x, cfg.y, cfg.width, cfg.height, OverlayMode.NONE,
       cfg.movement_mode, cfg.auto_save, cfg.config_file⟩ frame = frame ∧
    OverlayRenderer.renderMode ops cfg OverlayMode.MINIMAL frame =
      ops.draw_border cfg frame ∧
    OverlayRenderer.renderMode ops cfg OverlayMode.STANDARD frame =
      ops.draw_info cfg
        (OverlayRenderer.renderMode ops cfg OverlayMode.MINIMAL frame) ∧
    OverlayRenderer.renderMode ops cfg OverlayMode.FULL frame =
      ops.draw_guides
        (OverlayRenderer.renderMode ops cfg OverlayMode.STANDARD frame) ∧
    OverlayRenderer.renderMode ops cfg OverlayMode.DEBUG frame =
      ops.draw_debug
        (OverlayRenderer.renderMode ops cfg OverlayMode.FULL frame) ∧
    (∀ m1 m2 : OverlayMode, m1.value < m2.value → ∀ i j : Nat,
      pixelAt (OverlayRenderer.renderMode ops cfg m1 frame) i j ≠
        pixelAt frame i j →
      pixelAt (OverlayRenderer.renderMode ops cfg m2 frame) i j ≠
        pixelAt frame i j ∨
      pixelAt (OverlayRenderer.renderMode ops cfg m2 frame) i j ≠
        pixelAt (OverlayRenderer.renderMode ops cfg m1 frame) i j) := by
  refine ⟨rfl, rfl, rfl, rfl, rfl, rfl, fun m1 m2 h12 i j hp => ?_⟩
  by_cases hq : pixelAt (OverlayRenderer.renderMode ops cfg m2 frame) i j =
      pixelAt frame i j
  · right
    rw [hq]
    exact fun he => hp he.symm
  · left
    exact hq

/-- Witness for C9: concrete layers where the MINIMAL border layer
repaints the single pixel of a black frame, instantiated at
m1 = MINIMAL < m2 = STANDARD. -/
theorem render_cumulative_monotone_w :
    pixelAt (OverlayRenderer.renderMode ops0 defaultConfig
      OverlayMode.STANDARD frame0) 0 0 ≠ pixelAt frame0 0 0 ∨
    pixelAt (OverlayRenderer.renderMode ops0 defaultConfig
      OverlayMode.STANDARD frame0) 0 0 ≠
      pixelAt (OverlayRenderer.renderMode ops0 defaultConfig
        OverlayMode.MINIMAL frame0) 0 0 :=
  (render_cumulative_monotone ops0 defaultConfig frame0).2.2.2.2.2.2
    OverlayMode.MINIMAL OverlayMode.STANDARD (by decide) 0 0 (by decide)

/-- Claim C10: reset sets exactly the four region fields to
(40, 330, 340, 230) and leaves overlay_mode, movement_mode, auto_save
and config_file unchanged. -/
theorem reset_sets_region_only (cfg : StreamConfig) :
    MovementController.reset cfg =
      ⟨40, 330, 340, 230, cfg.overlay_mode, cfg.movement_mode,
       cfg.auto_save, cfg.config_file⟩ ∧
    (MovementController.reset cfg).x = 40 ∧
    (MovementController.reset cfg).y = 330 ∧
    (MovementController.reset cfg).width = 340 ∧
    (MovementController.reset cfg).height = 230 ∧
    (MovementController.reset cfg).overlay_mode = cfg.overlay_mode ∧
    (MovementController.reset cfg).movement_mode = cfg.movement_mode ∧
    (MovementController.reset cfg).auto_save = cfg.auto_save ∧
    (MovementController.reset cfg).config_file = cfg.config_file :=
  ⟨rfl, rfl, rfl, rfl, rfl, rfl, rfl, rfl, rfl⟩
